import Mathlib

/-!
Shallow embedding of the Ticket Lifecycle & Verification Engine of the
Internal-inventory-tracker repository.

The ticket model operations come from `internal/models` (`TicketModel.UpdateStatus`,
`TicketModel.ReassignTicket`, `TicketModel.RequestVerification`, `TicketModel.VerifyTicket`,
`TicketModel.CanVerifyTicket`, `TicketModel.SkipVerification`, `TicketModel.SetupVerification`,
`TicketModel.ResetVerification`): each is a SQL UPDATE over one ticket row, embedded here
as a pure function on a `Ticket` record.  The handler layer comes from
`internal/handlers/tickets.go` and the permission middleware from
`internal/middleware/authorization_db.go`; route wiring (`RegisterRoutes`) applies the
`RequirePermission` middleware in front of the status-update handler.

Timestamps are abstract instants (`Nat`): every SQL `NOW()` inside a single UPDATE is the
same instant, passed explicitly as a `now` argument.  User and ticket ids are `Nat`,
the Go `int` completion percentage is `Int`.
-/

/-- Status literal corresponding to the string constant in the source. -/
def statusOpen : String := "open"

/-- Status literal corresponding to the string constant in the source. -/
def statusReceived : String := "received"

/-- Status literal corresponding to the string constant in the source. -/
def statusInProgress : String := "in_progress"

/-- Status literal corresponding to the string constant in the source. -/
def statusResolved : String := "resolved"

/-- Status literal corresponding to the string constant in the source. -/
def statusClosed : String := "closed"

/-- Verification-status literal from the source. -/
def vsNotRequired : String := "not_required"

/-- Verification-status literal from the source. -/
def vsPending : String := "pending"

/-- Verification-status literal from the source. -/
def vsVerified : String := "verified"

/-- Verification-status literal from the source. -/
def vsRejected : String := "rejected"

/-- Permission name guarding the status-update route in RegisterRoutes. -/
def permTicketsUpdate : String := "tickets:update"

/-- The fixed note text the model writes on a verification reset
(`"Verification reset by user"` in TicketModel.ResetVerification). -/
def resetMarker : String := "Verification reset by user"

/-- Ticket record: the lifecycle and verification fields of the `Ticket` struct in
`internal/models` (descriptive fields such as title and priority play no role in the
claims and are omitted; they are copied through unchanged by every operation here). -/
structure Ticket where
  id : Nat
  status : String
  completion : Int
  createdBy : Option Nat
  assignedTo : Option Nat
  verificationStatus : String
  verificationNotes : String
  verifiedBy : Option Nat
  verifiedAt : Option Nat
  closedAt : Option Nat
deriving Repr, DecidableEq

/-- The five legal status values checked by the status-update handler
(`validStatuses` map in TicketsHandler.UpdateTicketStatus). -/
def validStatuses : List String :=
  [statusOpen, statusReceived, statusInProgress, statusResolved, statusClosed]

/-- Initial state of a ticket as forced by TicketsHandler.CreateTicket
(status open, completion 0, creator recorded) together with the schema defaults for
the verification fields (verification_status not_required, empty notes, null
verified_by / verified_at / closed_at). -/
def newTicket (tid : Nat) (creator : Nat) : Ticket :=
  { id := tid
    status := statusOpen
    completion := 0
    createdBy := some creator
    assignedTo := none
    verificationStatus := vsNotRequired
    verificationNotes := ""
    verifiedBy := none
    verifiedAt := none
    closedAt := none }

namespace TicketModel

/-- TicketModel.UpdateStatus: sets status, completion and assigned_to, and sets
closed_at via `CASE WHEN $1 = closed AND closed_at IS NULL THEN NOW() ELSE closed_at END`. -/
def UpdateStatus (t : Ticket) (status : String) (completion : Int)
    (assignedTo : Option Nat) (now : Nat) : Ticket :=
  { t with
    status := status
    completion := completion
    assignedTo := assignedTo
    closedAt := if status = statusClosed ∧ t.closedAt = none then some now else t.closedAt }

/-- TicketModel.ReassignTicket: sets assigned_to only. -/
def ReassignTicket (t : Ticket) (newAssignee : Nat) : Ticket :=
  { t with assignedTo := some newAssignee }

/-- TicketModel.RequestVerification: sets verification_status to pending, stores the
notes, and forces status resolved and completion 90. -/
def RequestVerification (t : Ticket) (notes : String) : Ticket :=
  { t with
    verificationStatus := vsPending
    verificationNotes := notes
    status := statusResolved
    completion := 90 }

/-- TicketModel.VerifyTicket: on approval sets verification_status verified, status
closed, completion 100 and closed_at to NOW() (the CASE arm is unconditional on the
approved flag, it does not test whether closed_at is already set); on rejection sets
verification_status rejected, status in_progress, completion 50 and leaves closed_at.
In both branches verified_by and verified_at are set.  The notes column is
`COALESCE($2, verification_notes)` with a non-null Go string argument, so the new
notes always replace the old. -/
def VerifyTicket (t : Ticket) (userID : Nat) (approved : Bool) (notes : String)
    (now : Nat) : Ticket :=
  { t with
    verificationStatus := if approved then vsVerified else vsRejected
    verificationNotes := notes
    verifiedBy := some userID
    verifiedAt := some now
    status := if approved then statusClosed else statusInProgress
    completion := if approved then 100 else 50
    closedAt := if approved then some now else t.closedAt }

/-- TicketModel.SkipVerification: sets verification_status not_required, status closed,
completion 100, and closed_at to NOW() unconditionally (no null test on closed_at). -/
def SkipVerification (t : Ticket) (now : Nat) : Ticket :=
  { t with
    verificationStatus := vsNotRequired
    status := statusClosed
    completion := 100
    closedAt := some now }

/-- TicketModel.SetupVerification: stores the supplied verification_status and
verification_notes strings verbatim; no other column is touched. -/
def SetupVerification (t : Ticket) (status : String) (notes : String) : Ticket :=
  { t with
    verificationStatus := status
    verificationNotes := notes }

/-- TicketModel.ResetVerification: sets verification_status pending, writes the fixed
note string, and nulls verified_by and verified_at.  The userID argument of the Go
function is not bound into the query: the stored note is the constant marker. -/
def ResetVerification (t : Ticket) (userID : Nat) : Ticket :=
  { t with
    verificationStatus := vsPending
    verificationNotes := resetMarker
    verifiedBy := none
    verifiedAt := none }

end TicketModel

/-- Caller identity extracted from the request context (user id and role id). -/
structure Caller where
  userID : Nat
  roleID : Nat
deriving Repr, DecidableEq

/-- Collaborator state visible to the handlers: the tickets table (id-keyed), the set
of existing user ids, and the role_permissions rows consulted by the middleware. -/
structure DB where
  tickets : List (Nat × Ticket)
  users : List Nat
  rolePerms : List (Nat × String)
deriving Repr, DecidableEq

/-- Load-ticket-by-id (TicketModel.GetByID, success/not-found only). -/
def DB.getTicket (db : DB) (tid : Nat) : Option Ticket :=
  db.tickets.lookup tid

/-- Persist the updated ticket row. -/
def DB.setTicket (db : DB) (tid : Nat) (t : Ticket) : DB :=
  { db with tickets := db.tickets.map fun p => if p.1 = tid then (tid, t) else p }

/-- User-exists check (`SELECT EXISTS(SELECT 1 FROM users WHERE id = $1)`). -/
def DB.userExists (db : DB) (uid : Nat) : Bool :=
  db.users.contains uid

/-- Role-permission lookup of the middleware
(`SELECT EXISTS(... WHERE rp.role_id = $1 AND p.name = $2)`). -/
def DB.roleHasPermission (db : DB) (roleID : Nat) (perm : String) : Bool :=
  db.rolePerms.contains (roleID, perm)

/-- An assignee was supplied and the user-exists check failed
(the `input.AssignedTo != nil` branch of the status-update handler). -/
def DB.assigneeMissing (db : DB) (a : Option Nat) : Bool :=
  match a with
  | some u => ¬ db.userExists u
  | none => false

/-- Handler outcome: either the updated ticket (the JSON success response) or an
http.Error with its status code and message, exactly as written in tickets.go. -/
inductive HResult where
  | ok (t : Ticket)
  | err (code : Nat) (msg : String)
deriving Repr, DecidableEq

/-- TicketsHandler.UpdateTicketStatus (the setStatus operation), after the route
middleware: loads the ticket (404 on missing id), validates the status against the
five legal values (400), validates completion in 0..100 (400), checks an explicitly
supplied assignee exists (400), then applies TicketModel.UpdateStatus and persists.
No ownership or role check appears in this handler body. -/
def UpdateTicketStatus (db : DB) (c : Caller) (tid : Nat) (status : String)
    (completion : Int) (assignedTo : Option Nat) (now : Nat) : HResult × DB :=
  match db.getTicket tid with
  | none => (.err 404 "Ticket not found", db)
  | some t =>
    if status ∉ validStatuses then
      (.err 400 "Invalid status", db)
    else if completion < 0 ∨ 100 < completion then
      (.err 400 "Completion must be between 0 and 100", db)
    else if db.assigneeMissing assignedTo then
      (.err 400 "Assigned user not found", db)
    else
      let t2 := TicketModel.UpdateStatus t status completion assignedTo now
      (.ok t2, db.setTicket tid t2)

/-- The `/status` route as wired in RegisterRoutes: the RequirePermission
middleware for tickets:update runs first (403 when the role lacks the permission),
then TicketsHandler.UpdateTicketStatus. -/
def updateTicketStatusEndpoint (db : DB) (c : Caller) (tid : Nat) (status : String)
    (completion : Int) (assignedTo : Option Nat) (now : Nat) : HResult × DB :=
  if db.roleHasPermission c.roleID permTicketsUpdate then
    UpdateTicketStatus db c tid status completion assignedTo now
  else
    (.err 403 "Forbidden - insufficient permissions", db)

/-- TicketsHandler.RequestVerification: loads the ticket (404), allows only the
creator or role 1 (Admin) or role 2 (IT Staff) (403), requires status resolved or
in_progress (400), then applies TicketModel.RequestVerification. -/
def RequestVerificationHandler (db : DB) (c : Caller) (tid : Nat) (notes : String) :
    HResult × DB :=
  match db.getTicket tid with
  | none => (.err 404 "Ticket not found", db)
  | some t =>
    if t.createdBy = some c.userID ∨ c.roleID = 1 ∨ c.roleID = 2 then
      if t.status ≠ statusResolved ∧ t.status ≠ statusInProgress then
        (.err 400 "Ticket must be resolved or in progress to request verification", db)
      else
        let t2 := TicketModel.RequestVerification t notes
        (.ok t2, db.setTicket tid t2)
    else
      (.err 403 "Forbidden: Only ticket creator or administrators can request verification", db)

/-- TicketModel.CanVerifyTicket: reads created_by for the ticket (none models the
scan error on a missing row); Admin (role 1) and IT Staff (role 2) may verify any
ticket, other roles only tickets they created. -/
def CanVerifyTicket (db : DB) (tid : Nat) (userID : Nat) (roleID : Nat) : Option Bool :=
  match db.getTicket tid with
  | none => none
  | some t =>
    if roleID = 1 ∨ roleID = 2 then some true
    else if t.createdBy = some userID then some true
    else some false

/-- TicketsHandler.VerifyTicket (the decide operation): CanVerifyTicket first (500 on
its error, 403 on false), then loads the ticket (404), requires verification_status
pending (400), then applies TicketModel.VerifyTicket with the caller as verifier. -/
def VerifyTicketHandler (db : DB) (c : Caller) (tid : Nat) (approved : Bool)
    (notes : String) (now : Nat) : HResult × DB :=
  match CanVerifyTicket db tid c.userID c.roleID with
  | none => (.err 500 "Database error", db)
  | some false => (.err 403 "Forbidden: You cannot verify this ticket", db)
  | some true =>
    match db.getTicket tid with
    | none => (.err 404 "Ticket not found", db)
    | some t =>
      if t.verificationStatus ≠ vsPending then
        (.err 400 "Ticket is not pending verification", db)
      else
        let t2 := TicketModel.VerifyTicket t c.userID approved notes now
        (.ok t2, db.setTicket tid t2)

/-- TicketsHandler.SkipVerification: loads the ticket (404), allows only roles 1 and 2
(403 for everyone else, with no ownership exception), then applies
TicketModel.SkipVerification with no further state precondition. -/
def SkipVerificationHandler (db : DB) (c : Caller) (tid : Nat) (now : Nat) :
    HResult × DB :=
  match db.getTicket tid with
  | none => (.err 404 "Ticket not found", db)
  | some t =>
    if c.roleID ≠ 1 ∧ c.roleID ≠ 2 then
      (.err 403 "Forbidden: Only administrators can skip verification", db)
    else
      let t2 := TicketModel.SkipVerification t now
      (.ok t2, db.setTicket tid t2)

/-- TicketsHandler.SetupVerification: loads the ticket (404), requires status resolved
or in_progress (400), requires verification_status not_required (400), then stores the
supplied verification_status and notes strings verbatim via
TicketModel.SetupVerification.  The input strings are never validated. -/
def SetupVerificationHandler (db : DB) (c : Caller) (tid : Nat) (vstatus : String)
    (notes : String) : HResult × DB :=
  match db.getTicket tid with
  | none => (.err 404 "Ticket not found", db)
  | some t =>
    if t.status ≠ statusResolved ∧ t.status ≠ statusInProgress then
      (.err 400 "Ticket must be resolved or in progress to setup verification", db)
    else if t.verificationStatus ≠ vsNotRequired then
      (.err 400 "Verification is already set up for this ticket", db)
    else
      let t2 := TicketModel.SetupVerification t vstatus notes
      (.ok t2, db.setTicket tid t2)

/-- TicketsHandler.ResetVerification: loads the ticket (404), rejects closed tickets
(400) before any permission check or mutation, then allows roles 1 and 2, the creator,
or the recorded verifier (403 otherwise), then applies TicketModel.ResetVerification. -/
def ResetVerificationHandler (db : DB) (c : Caller) (tid : Nat) : HResult × DB :=
  match db.getTicket tid with
  | none => (.err 404 "Ticket not found", db)
  | some t =>
    if t.status = statusClosed then
      (.err 400 "Cannot reset verification for closed tickets", db)
    else if c.roleID = 1 ∨ c.roleID = 2 ∨ t.createdBy = some c.userID ∨
        t.verifiedBy = some c.userID then
      let t2 := TicketModel.ResetVerification t c.userID
      (.ok t2, db.setTicket tid t2)
    else
      (.err 403 "Forbidden: You cannot reset verification for this ticket", db)

/-- Result of the backing permission lookup: a boolean answer, or a failure of the
lookup itself (the Scan error branch in the middleware). -/
inductive PermLookup where
  | ok (b : Bool)
  | failure
deriving Repr, DecidableEq

/-- Outcome of the RequirePermission middleware for one request. -/
inductive MwOutcome where
  | proceed
  | unauthorized
  | forbidden
  | internalError
deriving Repr, DecidableEq

/-- AuthorizationMiddleware.RequirePermission: missing role context is 401; a failed
permission lookup is 500 Internal server error; a false lookup is 403 Forbidden;
a true lookup lets the request proceed to the handler. -/
def RequirePermission (ctxRole : Option Nat) (lookup : PermLookup) : MwOutcome :=
  match ctxRole with
  | none => .unauthorized
  | some _ =>
    match lookup with
    | .failure => .internalError
    | .ok b => if b then .proceed else .forbidden

/-- The CanVerifyTicket consultation inside TicketsHandler.VerifyTicket: a lookup
error yields 500 Database error, a false answer yields 403 Forbidden, a true answer
lets the handler continue (none). -/
def verifyPermissionBranch (lookup : PermLookup) : Option HResult :=
  match lookup with
  | .failure => some (.err 500 "Database error")
  | .ok b => if b then none else some (.err 403 "Forbidden: You cannot verify this ticket")

/-- One engine operation on a single ticket, at the guard level the handlers enforce
for a caller that passes authorization (an Admin caller passes every role gate):
setStatus requires a legal status and completion in range, requestVerification and
setup require the resolved/in_progress states, decide requires pending verification,
reset requires a non-closed ticket, skip and reassign have no state guard. -/
inductive Step : Ticket → Ticket → Prop where
  | setStatus (t : Ticket) (s : String) (comp : Int) (a : Option Nat) (now : Nat) :
      s ∈ validStatuses → 0 ≤ comp → comp ≤ 100 →
      Step t (TicketModel.UpdateStatus t s comp a now)
  | reassign (t : Ticket) (a : Nat) :
      Step t (TicketModel.ReassignTicket t a)
  | requestVerification (t : Ticket) (notes : String) :
      t.status = statusResolved ∨ t.status = statusInProgress →
      Step t (TicketModel.RequestVerification t notes)
  | decide (t : Ticket) (u : Nat) (approved : Bool) (notes : String) (now : Nat) :
      t.verificationStatus = vsPending →
      Step t (TicketModel.VerifyTicket t u approved notes now)
  | skip (t : Ticket) (now : Nat) :
      Step t (TicketModel.SkipVerification t now)
  | setup (t : Ticket) (s notes : String) :
      t.status = statusResolved ∨ t.status = statusInProgress →
      t.verificationStatus = vsNotRequired →
      Step t (TicketModel.SetupVerification t s notes)
  | reset (t : Ticket) (u : Nat) :
      t.status ≠ statusClosed →
      Step t (TicketModel.ResetVerification t u)

/-- Reachability of a ticket state from creation through any sequence of engine
operations. -/
def ReachableFrom (t0 t : Ticket) : Prop :=
  Relation.ReflTransGen Step t0 t

/-- Notes string used in concrete instantiations. -/
def demoNotes : String := "done"

/-- A ticket in progress with verification not yet required, created by user 5. -/
def demoInProgressTicket : Ticket :=
  { id := 1
    status := statusInProgress
    completion := 40
    createdBy := some 5
    assignedTo := some 6
    verificationStatus := vsNotRequired
    verificationNotes := ""
    verifiedBy := none
    verifiedAt := none
    closedAt := none }

/-- A closed ticket with pending verification and closedAt already set. -/
def closedDemoTicket : Ticket :=
  { id := 1
    status := statusClosed
    completion := 100
    createdBy := some 5
    assignedTo := none
    verificationStatus := vsPending
    verificationNotes := ""
    verifiedBy := none
    verifiedAt := none
    closedAt := some 1 }

/-- Claim C6: reset (ResetVerification) on a ticket whose status is closed is rejected
for every caller, administrators included, with the 400 closed-ticket error; the check
runs before the permission test and before any mutation, so the database is returned
unchanged. -/
theorem resetVerification_closed_rejected (db : DB) (c : Caller) (tid : Nat)
    (t : Ticket) (ht : db.getTicket tid = some t) (hc : t.status = statusClosed) :
    ResetVerificationHandler db c tid =
      (.err 400 "Cannot reset verification for closed tickets", db) := by
  unfold ResetVerificationHandler
  rw [ht]
  dsimp only
  rw [if_pos hc]

/-- Witness for C6: an administrative caller (role 1) resetting the concrete closed
ticket is rejected and the database is unchanged. -/
theorem resetVerification_closed_rejected_witness :
    (DB.mk [(1, closedDemoTicket)] [5] []).getTicket 1 = some closedDemoTicket ∧
    closedDemoTicket.status = statusClosed ∧
    ResetVerificationHandler (DB.mk [(1, closedDemoTicket)] [5] []) (Caller.mk 9 1) 1 =
      (.err 400 "Cannot reset verification for closed tickets",
        DB.mk [(1, closedDemoTicket)] [5] []) :=
  ⟨by decide, by decide,
    resetVerification_closed_rejected (DB.mk [(1, closedDemoTicket)] [5] [])
      (Caller.mk 9 1) 1 closedDemoTicket (by decide) (by decide)⟩

/-- Claim C9: a failure of the backing permission lookup surfaces as a distinguishable
dependency error, never as permission denied: in the RequirePermission middleware the
failed lookup yields the internal-error outcome while an absent permission yields the
forbidden outcome, and in the decide handler the failed CanVerifyTicket lookup yields
the 500 error while a false answer yields the 403 error — the two outcomes always
differ. -/
theorem permission_lookup_failure_distinguishable (roleID : Nat) :
    RequirePermission (some roleID) .failure = .internalError ∧
    RequirePermission (some roleID) (.ok false) = .forbidden ∧
    MwOutcome.internalError ≠ MwOutcome.forbidden ∧
    verifyPermissionBranch .failure = some (.err 500 "Database error") ∧
    verifyPermissionBranch (.ok false) =
      some (.err 403 "Forbidden: You cannot verify this ticket") ∧
    verifyPermissionBranch .failure ≠ verifyPermissionBranch (.ok false) :=
  ⟨rfl, rfl, by decide, rfl, rfl, by decide⟩

/-- Claim C10: setup stores the supplied verification-status string verbatim, with no
validation: whenever the ticket status is in_progress or resolved and its verification
status is not_required, SetupVerification records any string s as verificationStatus
and the supplied notes verbatim — including values outside the four known ones, so
verification can move directly to verified without ever being pending. -/
theorem setupVerification_stores_verbatim (db : DB) (c : Caller) (tid : Nat)
    (t : Ticket) (s n : String) (ht : db.getTicket tid = some t)
    (hs : t.status = statusInProgress ∨ t.status = statusResolved)
    (hv : t.verificationStatus = vsNotRequired) :
    (SetupVerificationHandler db c tid s n).1 =
      .ok (TicketModel.SetupVerification t s n) ∧
    (TicketModel.SetupVerification t s n).verificationStatus = s ∧
    (TicketModel.SetupVerification t s n).verificationNotes = n := by
  refine ⟨?_, rfl, rfl⟩
  have h1 : ¬ (t.status ≠ statusResolved ∧ t.status ≠ statusInProgress) := by
    rcases hs with h | h <;> simp [h]
  unfold SetupVerificationHandler
  rw [ht]
  dsimp only
  rw [if_neg h1, if_neg (by simp [hv])]

/-- Witness for C10: setting up verification on the concrete in-progress ticket with
the string verified stores it verbatim, jumping verification straight to verified. -/
theorem setupVerification_stores_verbatim_witness :
    (DB.mk [(1, demoInProgressTicket)] [5, 6] []).getTicket 1 =
      some demoInProgressTicket ∧
    (demoInProgressTicket.status = statusInProgress ∨
      demoInProgressTicket.status = statusResolved) ∧
    demoInProgressTicket.verificationStatus = vsNotRequired ∧
    ((SetupVerificationHandler (DB.mk [(1, demoInProgressTicket)] [5, 6] [])
        (Caller.mk 7 3) 1 vsVerified demoNotes).1 =
      .ok (TicketModel.SetupVerification demoInProgressTicket vsVerified demoNotes) ∧
    (TicketModel.SetupVerification demoInProgressTicket vsVerified demoNotes).verificationStatus =
      vsVerified ∧
    (TicketModel.SetupVerification demoInProgressTicket vsVerified demoNotes).verificationNotes =
      demoNotes) :=
  ⟨by decide, Or.inl (by decide), by decide,
    setupVerification_stores_verbatim (DB.mk [(1, demoInProgressTicket)] [5, 6] [])
      (Caller.mk 7 3) 1 demoInProgressTicket vsVerified demoNotes (by decide)
      (Or.inl (by decide)) (by decide)⟩

/-- Claim C8 counterexample: resetting the same ticket as two different users yields
bit-for-bit identical ticket states, with the constant note text: the stored marker
cannot record who performed the reset, because the resetter id is not bound into the
update. -/
theorem resetVerification_marker_counterexample :
    TicketModel.ResetVerification demoInProgressTicket 7 =
      TicketModel.ResetVerification demoInProgressTicket 8 ∧
    (7 : Nat) ≠ 8 ∧
    (TicketModel.ResetVerification demoInProgressTicket 7).verificationNotes =
      resetMarker := by
  refine ⟨by decide, by decide, by decide⟩

/-- Claim C8 amended: reset returns verification to pending, clears verifiedBy and
verifiedAt to null, and overwrites verificationNotes with the fixed marker string —
which does not record who performed the reset: the result is independent of the
resetting user. -/
theorem resetVerification_fields (t : Ticket) (u v : Nat) :
    (TicketModel.ResetVerification t u).verificationStatus = vsPending ∧
    (TicketModel.ResetVerification t u).verifiedBy = none ∧
    (TicketModel.ResetVerification t u).verifiedAt = none ∧
    (TicketModel.ResetVerification t u).verificationNotes = resetMarker ∧
    TicketModel.ResetVerification t u = TicketModel.ResetVerification t v :=
  ⟨rfl, rfl, rfl, rfl, rfl⟩

/-- Claim C4: for an authorized caller, requestVerification succeeds exactly when the
ticket status is in_progress or resolved; for status open, received or closed it fails
with the invalid-state 400 error and the database is unchanged; on success it sets
verificationStatus pending, stores the supplied notes, and forces status resolved and
completion 90 regardless of the prior status and completion. -/
theorem requestVerification_state_gate (db : DB) (c : Caller) (tid : Nat) (t : Ticket)
    (notes : String) (ht : db.getTicket tid = some t)
    (hauth : t.createdBy = some c.userID ∨ c.roleID = 1 ∨ c.roleID = 2) :
    ((RequestVerificationHandler db c tid notes).1 =
        .ok (TicketModel.RequestVerification t notes) ↔
      (t.status = statusInProgress ∨ t.status = statusResolved)) ∧
    (t.status = statusOpen ∨ t.status = statusReceived ∨ t.status = statusClosed →
      RequestVerificationHandler db c tid notes =
        (.err 400 "Ticket must be resolved or in progress to request verification", db)) ∧
    (TicketModel.RequestVerification t notes).verificationStatus = vsPending ∧
    (TicketModel.RequestVerification t notes).verificationNotes = notes ∧
    (TicketModel.RequestVerification t notes).status = statusResolved ∧
    (TicketModel.RequestVerification t notes).completion = 90 := by
  have hred : RequestVerificationHandler db c tid notes =
      if t.status ≠ statusResolved ∧ t.status ≠ statusInProgress then
        (.err 400 "Ticket must be resolved or in progress to request verification", db)
      else
        (.ok (TicketModel.RequestVerification t notes),
          db.setTicket tid (TicketModel.RequestVerification t notes)) := by
    unfold RequestVerificationHandler
    rw [ht]
    dsimp only
    rw [if_pos hauth]
  refine ⟨?_, ?_, rfl, rfl, rfl, rfl⟩
  · constructor
    · intro hok
      by_cases hcond : t.status ≠ statusResolved ∧ t.status ≠ statusInProgress
      · rw [hred, if_pos hcond] at hok
        exact absurd hok (by simp)
      · push_neg at hcond
        by_cases h1 : t.status = statusResolved
        · exact Or.inr h1
        · exact Or.inl (hcond h1)
    · intro hs
      have hcond : ¬ (t.status ≠ statusResolved ∧ t.status ≠ statusInProgress) := by
        rcases hs with h | h <;> simp [h]
      rw [hred, if_neg hcond]
  · intro hs
    have hcond : t.status ≠ statusResolved ∧ t.status ≠ statusInProgress := by
      rcases hs with h | h | h <;> rw [h] <;> exact ⟨by decide, by decide⟩
    rw [hred, if_pos hcond]

/-- Witness for C4: the creator of the concrete in-progress ticket requests
verification and it succeeds with the forced resolved/90/pending outcome; the same
ticket, were it open, received or closed, would be rejected (the implication holds
vacuously at this instantiation, discharged by the theorem itself). -/
theorem requestVerification_state_gate_witness :
    (DB.mk [(1, demoInProgressTicket)] [5, 6] []).getTicket 1 =
      some demoInProgressTicket ∧
    (demoInProgressTicket.createdBy = some (Caller.mk 5 3).userID ∨
      (Caller.mk 5 3).roleID = 1 ∨ (Caller.mk 5 3).roleID = 2) ∧
    (((RequestVerificationHandler (DB.mk [(1, demoInProgressTicket)] [5, 6] [])
          (Caller.mk 5 3) 1 demoNotes).1 =
        .ok (TicketModel.RequestVerification demoInProgressTicket demoNotes) ↔
      (demoInProgressTicket.status = statusInProgress ∨
        demoInProgressTicket.status = statusResolved)) ∧
    (demoInProgressTicket.status = statusOpen ∨
        demoInProgressTicket.status = statusReceived ∨
        demoInProgressTicket.status = statusClosed →
      RequestVerificationHandler (DB.mk [(1, demoInProgressTicket)] [5, 6] [])
          (Caller.mk 5 3) 1 demoNotes =
        (.err 400 "Ticket must be resolved or in progress to request verification",
          DB.mk [(1, demoInProgressTicket)] [5, 6] [])) ∧
    (TicketModel.RequestVerification demoInProgressTicket demoNotes).verificationStatus =
      vsPending ∧
    (TicketModel.RequestVerification demoInProgressTicket demoNotes).verificationNotes =
      demoNotes ∧
    (TicketModel.RequestVerification demoInProgressTicket demoNotes).status =
      statusResolved ∧
    (TicketModel.RequestVerification demoInProgressTicket demoNotes).completion = 90) :=
  ⟨by decide, Or.inl (by decide),
    requestVerification_state_gate (DB.mk [(1, demoInProgressTicket)] [5, 6] [])
      (Caller.mk 5 3) 1 demoInProgressTicket demoNotes (by decide)
      (Or.inl (by decide))⟩

/-- Claim C1 amended: for a pending ticket and an authorized caller, decide with
approved=true yields status closed, completion 100, verificationStatus verified,
verifiedBy the verifier, verifiedAt now, and closedAt overwritten to now
unconditionally — not only when it was previously null; decide with approved=false
yields status in_progress, completion 50, verificationStatus rejected, verifiedBy the
verifier, verifiedAt now, and closedAt unchanged.  Both outcomes are independent of
the prior completion value. -/
theorem verifyTicket_decide_fields (db : DB) (c : Caller) (tid : Nat) (t : Ticket)
    (notes : String) (now : Nat) (approved : Bool)
    (ht : db.getTicket tid = some t)
    (hp : t.verificationStatus = vsPending)
    (hauth : c.roleID = 1 ∨ c.roleID = 2 ∨ t.createdBy = some c.userID) :
    (VerifyTicketHandler db c tid approved notes now).1 =
      .ok (TicketModel.VerifyTicket t c.userID approved notes now) ∧
    (approved = true →
      (TicketModel.VerifyTicket t c.userID approved notes now).status = statusClosed ∧
      (TicketModel.VerifyTicket t c.userID approved notes now).completion = 100 ∧
      (TicketModel.VerifyTicket t c.userID approved notes now).verificationStatus =
        vsVerified ∧
      (TicketModel.VerifyTicket t c.userID approved notes now).verifiedBy =
        some c.userID ∧
      (TicketModel.VerifyTicket t c.userID approved notes now).verifiedAt = some now ∧
      (TicketModel.VerifyTicket t c.userID approved notes now).closedAt = some now) ∧
    (approved = false →
      (TicketModel.VerifyTicket t c.userID approved notes now).status =
        statusInProgress ∧
      (TicketModel.VerifyTicket t c.userID approved notes now).completion = 50 ∧
      (TicketModel.VerifyTicket t c.userID approved notes now).verificationStatus =
        vsRejected ∧
      (TicketModel.VerifyTicket t c.userID approved notes now).verifiedBy =
        some c.userID ∧
      (TicketModel.VerifyTicket t c.userID approved notes now).verifiedAt = some now ∧
      (TicketModel.VerifyTicket t c.userID approved notes now).closedAt = t.closedAt) := by
  have hcv : CanVerifyTicket db tid c.userID c.roleID = some true := by
    unfold CanVerifyTicket
    rw [ht]
    dsimp only
    rcases hauth with h | h | h
    · rw [if_pos (Or.inl h)]
    · rw [if_pos (Or.inr h)]
    · by_cases hr : c.roleID = 1 ∨ c.roleID = 2
      · rw [if_pos hr]
      · rw [if_neg hr, if_pos h]
  refine ⟨?_, ?_, ?_⟩
  · unfold VerifyTicketHandler
    rw [hcv]
    dsimp only
    rw [ht]
    dsimp only
    rw [if_neg (by simp [hp])]
  · intro ha
    subst ha
    exact ⟨rfl, rfl, rfl, rfl, rfl, rfl⟩
  · intro ha
    subst ha
    exact ⟨rfl, rfl, rfl, rfl, rfl, rfl⟩

/-- Witness for C1: an administrative caller approves the concrete pending closed
ticket: the handler returns the verified/closed/100 outcome with verifiedBy and
verifiedAt set. -/
theorem verifyTicket_decide_fields_witness :
    (DB.mk [(1, closedDemoTicket)] [5] []).getTicket 1 = some closedDemoTicket ∧
    closedDemoTicket.verificationStatus = vsPending ∧
    ((Caller.mk 9 1).roleID = 1 ∨ (Caller.mk 9 1).roleID = 2 ∨
      closedDemoTicket.createdBy = some (Caller.mk 9 1).userID) ∧
    ((VerifyTicketHandler (DB.mk [(1, closedDemoTicket)] [5] []) (Caller.mk 9 1) 1
        true demoNotes 9).1 =
      .ok (TicketModel.VerifyTicket closedDemoTicket 9 true demoNotes 9) ∧
    (true = true →
      (TicketModel.VerifyTicket closedDemoTicket 9 true demoNotes 9).status =
        statusClosed ∧
      (TicketModel.VerifyTicket closedDemoTicket 9 true demoNotes 9).completion = 100 ∧
      (TicketModel.VerifyTicket closedDemoTicket 9 true demoNotes 9).verificationStatus =
        vsVerified ∧
      (TicketModel.VerifyTicket closedDemoTicket 9 true demoNotes 9).verifiedBy =
        some 9 ∧
      (TicketModel.VerifyTicket closedDemoTicket 9 true demoNotes 9).verifiedAt =
        some 9 ∧
      (TicketModel.VerifyTicket closedDemoTicket 9 true demoNotes 9).closedAt =
        some 9) ∧
    (true = false →
      (TicketModel.VerifyTicket closedDemoTicket 9 true demoNotes 9).status =
        statusInProgress ∧
      (TicketModel.VerifyTicket closedDemoTicket 9 true demoNotes 9).completion = 50 ∧
      (TicketModel.VerifyTicket closedDemoTicket 9 true demoNotes 9).verificationStatus =
        vsRejected ∧
      (TicketModel.VerifyTicket closedDemoTicket 9 true demoNotes 9).verifiedBy =
        some 9 ∧
      (TicketModel.VerifyTicket closedDemoTicket 9 true demoNotes 9).verifiedAt =
        some 9 ∧
      (TicketModel.VerifyTicket closedDemoTicket 9 true demoNotes 9).closedAt =
        closedDemoTicket.closedAt)) :=
  ⟨by decide, by decide, Or.inl (by decide),
    verifyTicket_decide_fields (DB.mk [(1, closedDemoTicket)] [5] []) (Caller.mk 9 1)
      1 closedDemoTicket demoNotes 9 true (by decide) (by decide)
      (Or.inl (by decide))⟩

/-- A ticket that was closed at instant 1 and reopened to in_progress at instant 2,
then sent to verification: its verification is pending while closedAt is still the
earlier instant 1. -/
def pendingWithClosedAt : Ticket :=
  TicketModel.RequestVerification
    (TicketModel.UpdateStatus
      (TicketModel.UpdateStatus (newTicket 1 5) statusClosed 100 none 1)
      statusInProgress 40 none 2)
    demoNotes

/-- Claim C1 counterexample: a reachable pending ticket already carries
closedAt = some 1; approving it at instant 9 overwrites closedAt to some 9 instead of
leaving the already-set value, so the clause that closedAt is set only if not already
set fails on the code. -/
theorem verifyTicket_closedAt_counterexample :
    ReachableFrom (newTicket 1 5) pendingWithClosedAt ∧
    pendingWithClosedAt.verificationStatus = vsPending ∧
    pendingWithClosedAt.closedAt = some 1 ∧
    (TicketModel.VerifyTicket pendingWithClosedAt 7 true demoNotes 9).closedAt =
      some 9 ∧
    (TicketModel.VerifyTicket pendingWithClosedAt 7 true demoNotes 9).closedAt ≠
      pendingWithClosedAt.closedAt := by
  refine ⟨?_, by decide, by decide, by decide, by decide⟩
  have h1 : Step (newTicket 1 5)
      (TicketModel.UpdateStatus (newTicket 1 5) statusClosed 100 none 1) :=
    Step.setStatus (newTicket 1 5) statusClosed 100 none 1
      (by decide) (by decide) (by decide)
  have h2 : Step (TicketModel.UpdateStatus (newTicket 1 5) statusClosed 100 none 1)
      (TicketModel.UpdateStatus (TicketModel.UpdateStatus (newTicket 1 5)
        statusClosed 100 none 1) statusInProgress 40 none 2) :=
    Step.setStatus (TicketModel.UpdateStatus (newTicket 1 5) statusClosed 100 none 1)
      statusInProgress 40 none 2 (by decide) (by decide) (by decide)
  have h3 : Step (TicketModel.UpdateStatus (TicketModel.UpdateStatus (newTicket 1 5)
        statusClosed 100 none 1) statusInProgress 40 none 2) pendingWithClosedAt :=
    Step.requestVerification (TicketModel.UpdateStatus
      (TicketModel.UpdateStatus (newTicket 1 5) statusClosed 100 none 1)
      statusInProgress 40 none 2) demoNotes (Or.inr (by decide))
  exact Relation.ReflTransGen.tail (Relation.ReflTransGen.tail
    (Relation.ReflTransGen.single h1) h2) h3

/-- A ticket closed at instant 1 by a plain status update. -/
def closedOnceTicket : Ticket :=
  TicketModel.UpdateStatus (newTicket 1 5) statusClosed 100 none 1

/-- Claim C5 counterexample: skip overwrites an already-set closedAt: on a reachable
ticket with closedAt = some 1, an administrative caller skipping at instant 9
produces closedAt = some 9 rather than preserving the earlier value, so the clause
that closedAt is set only if not already set fails on the code. -/
theorem skipVerification_closedAt_counterexample :
    ReachableFrom (newTicket 1 5) closedOnceTicket ∧
    closedOnceTicket.closedAt = some 1 ∧
    (SkipVerificationHandler (DB.mk [(1, closedOnceTicket)] [5] [])
        (Caller.mk 9 1) 1 9).1 =
      .ok (TicketModel.SkipVerification closedOnceTicket 9) ∧
    (TicketModel.SkipVerification closedOnceTicket 9).closedAt = some 9 ∧
    (TicketModel.SkipVerification closedOnceTicket 9).closedAt ≠
      closedOnceTicket.closedAt := by
  refine ⟨Relation.ReflTransGen.single (Step.setStatus (newTicket 1 5) statusClosed
    100 none 1 (by decide) (by decide) (by decide)), by decide, by decide, by decide,
    by decide⟩

/-- Claim C5 amended: skip is denied with the 403 error for every caller whose role is
neither 1 (Admin) nor 2 (IT Staff) — even the creator — with the database unchanged;
for an allowed caller it sets verificationStatus not_required, status closed,
completion 100, and overwrites closedAt with the current instant unconditionally;
there is no precondition on the ticket state beyond its existence. -/
theorem skipVerification_behavior (db : DB) (c : Caller) (tid : Nat) (t : Ticket)
    (now : Nat) (ht : db.getTicket tid = some t) :
    (c.roleID ≠ 1 ∧ c.roleID ≠ 2 →
      SkipVerificationHandler db c tid now =
        (.err 403 "Forbidden: Only administrators can skip verification", db)) ∧
    (c.roleID = 1 ∨ c.roleID = 2 →
      (SkipVerificationHandler db c tid now).1 =
        .ok (TicketModel.SkipVerification t now)) ∧
    (TicketModel.SkipVerification t now).verificationStatus = vsNotRequired ∧
    (TicketModel.SkipVerification t now).status = statusClosed ∧
    (TicketModel.SkipVerification t now).completion = 100 ∧
    (TicketModel.SkipVerification t now).closedAt = some now := by
  refine ⟨?_, ?_, rfl, rfl, rfl, rfl⟩
  · intro h
    unfold SkipVerificationHandler
    rw [ht]
    dsimp only
    rw [if_pos h]
  · intro h
    have hno : ¬ (c.roleID ≠ 1 ∧ c.roleID ≠ 2) := by
      rcases h with h | h <;> simp [h]
    unfold SkipVerificationHandler
    rw [ht]
    dsimp only
    rw [if_neg hno]

/-- Witness for C5: the creator of the concrete in-progress ticket (role 3) is denied
skip with the database unchanged, while an administrative caller on the same ticket
force-closes it. -/
theorem skipVerification_behavior_witness :
    (DB.mk [(1, demoInProgressTicket)] [5, 6] []).getTicket 1 =
      some demoInProgressTicket ∧
    ((Caller.mk 5 3).roleID ≠ 1 ∧ (Caller.mk 5 3).roleID ≠ 2) ∧
    demoInProgressTicket.createdBy = some (Caller.mk 5 3).userID ∧
    SkipVerificationHandler (DB.mk [(1, demoInProgressTicket)] [5, 6] [])
        (Caller.mk 5 3) 1 9 =
      (.err 403 "Forbidden: Only administrators can skip verification",
        DB.mk [(1, demoInProgressTicket)] [5, 6] []) ∧
    ((Caller.mk 9 1).roleID = 1 ∨ (Caller.mk 9 1).roleID = 2) ∧
    (SkipVerificationHandler (DB.mk [(1, demoInProgressTicket)] [5, 6] [])
        (Caller.mk 9 1) 1 9).1 =
      .ok (TicketModel.SkipVerification demoInProgressTicket 9) :=
  ⟨by decide, by decide, by decide,
    (skipVerification_behavior (DB.mk [(1, demoInProgressTicket)] [5, 6] [])
      (Caller.mk 5 3) 1 demoInProgressTicket 9 (by decide)).1 (by decide),
    Or.inl (by decide),
    (skipVerification_behavior (DB.mk [(1, demoInProgressTicket)] [5, 6] [])
      (Caller.mk 9 1) 1 demoInProgressTicket 9 (by decide)).2.1 (Or.inl (by decide))⟩

/-- A ticket created by user 5 and assigned to user 6, used for the setStatus
authorization scenario. -/
def othersTicket : Ticket :=
  { id := 1
    status := statusOpen
    completion := 0
    createdBy := some 5
    assignedTo := some 6
    verificationStatus := vsNotRequired
    verificationNotes := ""
    verifiedBy := none
    verifiedAt := none
    closedAt := none }

/-- Database with the seeded staff role (role id 3) holding tickets:update, as the
permission seed migration assigns it. -/
def staffDB : DB :=
  { tickets := [(1, othersTicket)]
    users := [5, 6, 7]
    rolePerms := [(3, permTicketsUpdate)] }

/-- Claim C3 counterexample: caller 7 with the staff role 3 — not the creator, not
administrative, not the elevated role — invokes setStatus on a ticket created by
user 5 and assigned to user 6, and the endpoint accepts the request and mutates the
ticket, instead of denying with a not-owner authorization error and leaving the
ticket unchanged. -/
theorem updateStatus_no_ownership_counterexample :
    (Caller.mk 7 3).userID ≠ 5 ∧ (Caller.mk 7 3).roleID ≠ 1 ∧
    (Caller.mk 7 3).roleID ≠ 2 ∧
    othersTicket.createdBy = some 5 ∧ othersTicket.assignedTo = some 6 ∧
    updateTicketStatusEndpoint staffDB (Caller.mk 7 3) 1 statusReceived 10 none 2 =
      (.ok (TicketModel.UpdateStatus othersTicket statusReceived 10 none 2),
        staffDB.setTicket 1 (TicketModel.UpdateStatus othersTicket statusReceived 10
          none 2)) ∧
    TicketModel.UpdateStatus othersTicket statusReceived 10 none 2 ≠ othersTicket := by
  refine ⟨by decide, by decide, by decide, by decide, by decide, by decide, by decide⟩

/-- Claim C3 amended: the setStatus route checks only that the caller role holds the
tickets:update permission.  A role without it is denied with the generic
insufficient-permission 403 and the database is unchanged; any caller whose role
holds it proceeds into a handler that performs no ownership test — the handler result
is entirely independent of the caller identity.  (The elevated-role and
creator-ownership rules exist on the general ticket-update handler, not on
setStatus.) -/
theorem updateStatus_permission_only (db : DB) (c c2 : Caller) (tid : Nat)
    (s : String) (comp : Int) (a : Option Nat) (now : Nat) :
    (db.roleHasPermission c.roleID permTicketsUpdate = false →
      updateTicketStatusEndpoint db c tid s comp a now =
        (.err 403 "Forbidden - insufficient permissions", db)) ∧
    UpdateTicketStatus db c tid s comp a now = UpdateTicketStatus db c2 tid s comp a now ∧
    (db.roleHasPermission c.roleID permTicketsUpdate = true →
      updateTicketStatusEndpoint db c tid s comp a now =
        UpdateTicketStatus db c tid s comp a now) := by
  refine ⟨?_, rfl, ?_⟩
  · intro h
    unfold updateTicketStatusEndpoint
    rw [h]
    simp
  · intro h
    unfold updateTicketStatusEndpoint
    rw [h]
    simp

/-- Witness for C3 amended: a viewer-role caller (role 5, no tickets:update row) is
denied with the 403 insufficient-permission error and the database is unchanged, and
the handler treats two different callers of the staff role identically. -/
theorem updateStatus_permission_only_witness :
    staffDB.roleHasPermission (Caller.mk 8 5).roleID permTicketsUpdate = false ∧
    updateTicketStatusEndpoint staffDB (Caller.mk 8 5) 1 statusReceived 10 none 2 =
      (.err 403 "Forbidden - insufficient permissions", staffDB) ∧
    UpdateTicketStatus staffDB (Caller.mk 7 3) 1 statusReceived 10 none 2 =
      UpdateTicketStatus staffDB (Caller.mk 5 3) 1 statusReceived 10 none 2 :=
  ⟨by decide,
    (updateStatus_permission_only staffDB (Caller.mk 8 5) (Caller.mk 5 3) 1
      statusReceived 10 none 2).1 (by decide),
    (updateStatus_permission_only staffDB (Caller.mk 7 3) (Caller.mk 5 3) 1
      statusReceived 10 none 2).2.1⟩

/-- Claim C7: setStatus fails with 404 when the ticket id is unknown, with the
validation 400 errors when the requested status is outside the five legal values or
the completion is outside 0..100, and with the reference 400 error when a supplied
assignee does not exist; in every failure case the database is returned unchanged.
The checks run in handler order: ticket load, then status, completion, assignee. -/
theorem updateStatus_failure_cases (db : DB) (c : Caller) (tid : Nat) (s : String)
    (comp : Int) (a : Option Nat) (now : Nat) :
    (db.getTicket tid = none →
      UpdateTicketStatus db c tid s comp a now = (.err 404 "Ticket not found", db)) ∧
    (∀ t, db.getTicket tid = some t → s ∉ validStatuses →
      UpdateTicketStatus db c tid s comp a now = (.err 400 "Invalid status", db)) ∧
    (∀ t, db.getTicket tid = some t → s ∈ validStatuses → (comp < 0 ∨ 100 < comp) →
      UpdateTicketStatus db c tid s comp a now =
        (.err 400 "Completion must be between 0 and 100", db)) ∧
    (∀ t u, db.getTicket tid = some t → s ∈ validStatuses → 0 ≤ comp → comp ≤ 100 →
      a = some u → db.userExists u = false →
      UpdateTicketStatus db c tid s comp a now =
        (.err 400 "Assigned user not found", db)) := by
  refine ⟨?_, ?_, ?_, ?_⟩
  · intro h
    unfold UpdateTicketStatus
    rw [h]
  · intro t ht hs
    unfold UpdateTicketStatus
    rw [ht]
    dsimp only
    rw [if_pos hs]
  · intro t ht hs hcomp
    unfold UpdateTicketStatus
    rw [ht]
    dsimp only
    rw [if_neg (not_not.mpr hs), if_pos hcomp]
  · intro t u ht hs h0 h100 ha hu
    unfold UpdateTicketStatus
    rw [ht]
    dsimp only
    have hcomp : ¬ (comp < 0 ∨ 100 < comp) := by
      rw [not_or]
      exact ⟨not_lt.mpr h0, not_lt.mpr h100⟩
    have hmiss : db.assigneeMissing a = true := by
      rw [ha]
      simp [DB.assigneeMissing, hu]
    rw [if_neg (not_not.mpr hs), if_neg hcomp, if_pos (by rw [hmiss])]

/-- Witness for C7: the four failure cases at concrete inputs — missing ticket id 2,
an unknown status string, completion 101, and assignee 9 who is not a user — each
return the corresponding error with the database unchanged. -/
theorem updateStatus_failure_cases_witness :
    (staffDB.getTicket 2 = none ∧
      UpdateTicketStatus staffDB (Caller.mk 7 3) 2 statusReceived 10 none 2 =
        (.err 404 "Ticket not found", staffDB)) ∧
    (staffDB.getTicket 1 = some othersTicket ∧ demoNotes ∉ validStatuses ∧
      UpdateTicketStatus staffDB (Caller.mk 7 3) 1 demoNotes 10 none 2 =
        (.err 400 "Invalid status", staffDB)) ∧
    (statusReceived ∈ validStatuses ∧ ((101 : Int) < 0 ∨ (100 : Int) < 101) ∧
      UpdateTicketStatus staffDB (Caller.mk 7 3) 1 statusReceived 101 none 2 =
        (.err 400 "Completion must be between 0 and 100", staffDB)) ∧
    (staffDB.userExists 9 = false ∧
      UpdateTicketStatus staffDB (Caller.mk 7 3) 1 statusReceived 10 (some 9) 2 =
        (.err 400 "Assigned user not found", staffDB)) :=
  ⟨⟨by decide,
      (updateStatus_failure_cases staffDB (Caller.mk 7 3) 2 statusReceived 10 none
        2).1 (by decide)⟩,
    ⟨by decide, by decide,
      (updateStatus_failure_cases staffDB (Caller.mk 7 3) 1 demoNotes 10 none
        2).2.1 othersTicket (by decide) (by decide)⟩,
    ⟨by decide, Or.inr (by decide),
      (updateStatus_failure_cases staffDB (Caller.mk 7 3) 1 statusReceived 101 none
        2).2.2.1 othersTicket (by decide) (by decide) (Or.inr (by decide))⟩,
    ⟨by decide,
      (updateStatus_failure_cases staffDB (Caller.mk 7 3) 1 statusReceived 10
        (some 9) 2).2.2.2 othersTicket 9 (by decide) (by decide) (by decide)
        (by decide) rfl (by decide)⟩⟩

/-- Helper for C2: every engine step preserves the invariant that a closed ticket has
a non-null closedAt. -/
theorem step_preserves_closed_invariant {t t2 : Ticket} (h : Step t t2)
    (inv : t.status = statusClosed → t.closedAt ≠ none) :
    t2.status = statusClosed → t2.closedAt ≠ none := by
  have hoc : statusOpen ≠ statusClosed := by decide
  have hrc : statusResolved ≠ statusClosed := by decide
  have hic : statusInProgress ≠ statusClosed := by decide
  cases h with
  | setStatus s comp a now hs h0 h1 =>
    intro hcl
    dsimp only [TicketModel.UpdateStatus] at hcl ⊢
    split_ifs with hc
    · simp
    · intro hn
      exact hc ⟨hcl, hn⟩
  | reassign a =>
    exact inv
  | requestVerification notes hst =>
    intro hcl
    exact absurd hcl hrc
  | decide u approved notes now hp =>
    cases approved with
    | false =>
      intro hcl
      exact absurd hcl hic
    | true =>
      intro hcl
      dsimp only [TicketModel.VerifyTicket]
      simp
  | skip now =>
    intro hcl
    dsimp only [TicketModel.SkipVerification]
    simp
  | setup s notes hst hv =>
    exact inv
  | reset u hst =>
    exact inv

/-- Helper for C2: once closedAt is non-null, no engine step makes it null again. -/
theorem step_preserves_closedAt_nonnull {t t2 : Ticket} (h : Step t t2)
    (hn : t.closedAt ≠ none) : t2.closedAt ≠ none := by
  cases h with
  | setStatus s comp a now hs h0 h1 =>
    dsimp only [TicketModel.UpdateStatus]
    split_ifs with hc
    · simp
    · exact hn
  | reassign a =>
    exact hn
  | requestVerification notes hst =>
    exact hn
  | decide u approved notes now hp =>
    cases approved with
    | false => exact hn
    | true =>
      dsimp only [TicketModel.VerifyTicket]
      simp
  | skip now =>
    dsimp only [TicketModel.SkipVerification]
    simp
  | setup s notes hst hv =>
    exact hn
  | reset u hst =>
    exact hn

/-- Claim C2 amended: over every ticket reachable from creation through any sequence
of engine operations, a closed status implies a non-null closedAt, and a non-null
closedAt is never reverted to null by any further operation.  The original
biconditional and value-immutability do not hold: setStatus away from closed keeps
closedAt set while the status is no longer closed, and skip or an approving decide
overwrite the stored closedAt value (see the counterexample). -/
theorem closedAt_invariant (tid uid : Nat) (t : Ticket)
    (h : ReachableFrom (newTicket tid uid) t) :
    (t.status = statusClosed → t.closedAt ≠ none) ∧
    (∀ t2, Step t t2 → t.closedAt ≠ none → t2.closedAt ≠ none) := by
  constructor
  · induction h with
    | refl =>
      intro hcl
      exact absurd hcl (show statusOpen ≠ statusClosed by decide)
    | tail hsteps hstep ih =>
      exact step_preserves_closed_invariant hstep ih
  · intro t2 hstep hn
    exact step_preserves_closedAt_nonnull hstep hn

/-- Witness for C2 amended: the invariant instantiated at the freshly created ticket,
which is trivially reachable from itself. -/
theorem closedAt_invariant_witness :
    ReachableFrom (newTicket 1 5) (newTicket 1 5) ∧
    (((newTicket 1 5).status = statusClosed → (newTicket 1 5).closedAt ≠ none) ∧
      (∀ t2, Step (newTicket 1 5) t2 → (newTicket 1 5).closedAt ≠ none →
        t2.closedAt ≠ none)) :=
  ⟨Relation.ReflTransGen.refl, closedAt_invariant 1 5 (newTicket 1 5)
    Relation.ReflTransGen.refl⟩

/-- A ticket closed at instant 1 and then reopened at instant 2: its closedAt is
still set while its status is open. -/
def reopenedTicket : Ticket :=
  TicketModel.UpdateStatus
    (TicketModel.UpdateStatus (newTicket 1 5) statusClosed 100 none 1)
    statusOpen 0 none 2

/-- Claim C2 counterexample: the reachable reopened ticket has status open with
closedAt = some 1, refuting the only-if direction of the biconditional; moreover a
further skip step changes the stored closedAt value from some 1 to some 9, refuting
the clause that a non-null closedAt never changes. -/
theorem closedAt_iff_counterexample :
    ReachableFrom (newTicket 1 5) reopenedTicket ∧
    reopenedTicket.status ≠ statusClosed ∧
    reopenedTicket.closedAt = some 1 ∧
    Step reopenedTicket (TicketModel.SkipVerification reopenedTicket 9) ∧
    (TicketModel.SkipVerification reopenedTicket 9).closedAt = some 9 ∧
    (TicketModel.SkipVerification reopenedTicket 9).closedAt ≠
      reopenedTicket.closedAt := by
  refine ⟨?_, by decide, by decide, Step.skip reopenedTicket 9, by decide, by decide⟩
  have h1 : Step (newTicket 1 5)
      (TicketModel.UpdateStatus (newTicket 1 5) statusClosed 100 none 1) :=
    Step.setStatus (newTicket 1 5) statusClosed 100 none 1
      (by decide) (by decide) (by decide)
  have h2 : Step (TicketModel.UpdateStatus (newTicket 1 5) statusClosed 100 none 1)
      reopenedTicket :=
    Step.setStatus (TicketModel.UpdateStatus (newTicket 1 5) statusClosed 100 none 1)
      statusOpen 0 none 2 (by decide) (by decide) (by decide)
  exact Relation.ReflTransGen.tail (Relation.ReflTransGen.single h1) h2
